import Mathlib

/-!
Verification of the gcs-xml-multipart-client repository: a Go client for the
GCS XML multipart upload API.  The definitions below are a shallow embedding
of the package multipartclient.  The canonical client is the most complete
snapshot (the MultipartClient in src/unnamed/part_001); where the repository
tests exercise behavior whose client code is absent from the snapshots
(Date headers from an injectable clock, optional query parameters, the full
ListUpload shape), the corresponding definitions are modelled from the spec
and marked as such.
-/

deriving instance DecidableEq for Except

set_option maxRecDepth 8000

namespace GcsMultipart

/-- An HTTP response as the client sees it after the transport returns:
a status code, the status line text, and an optional body whose read
either fails with an error message or yields the body text.  A nil body
in Go is modelled as none; a body whose ReadAll fails is modelled as
some (Except.error e). -/
structure HttpResponse where
  statusCode : Int
  status : String
  body : Option (Except String String)
  headers : List (String × String) := []
  deriving Repr, DecidableEq

/-- Shallow embedding of checkResponse (src/unnamed/part_001 lines 28 to 45):
success (none) when 200 <= StatusCode < 300; otherwise an error whose message
defaults to the status text, is replaced by the body text when the body is
readable and non-empty, and wraps the read error together with the status
text when reading the body fails. -/
def checkResponse (resp : HttpResponse) : Option String :=
  if 200 ≤ resp.statusCode ∧ resp.statusCode < 300 then
    none
  else
    match resp.body with
    | none => some resp.status
    | some (Except.error readErr) =>
        some (readErr ++ " (failed to read response body); " ++ resp.status)
    | some (Except.ok bodyStr) =>
        if bodyStr = "" then some resp.status else some bodyStr

theorem checkResponse_none_iff (resp : HttpResponse) :
    checkResponse resp = none ↔ 200 ≤ resp.statusCode ∧ resp.statusCode < 300 := by
  unfold checkResponse
  by_cases h : 200 ≤ resp.statusCode ∧ resp.statusCode < 300
  · simp [h]
  · simp only [if_neg h]
    constructor
    · intro hc
      exfalso
      cases hb : resp.body with
      | none => rw [hb] at hc; exact Option.noConfusion hc
      | some r =>
        cases r with
        | error e => rw [hb] at hc; exact Option.noConfusion hc
        | ok s =>
          rw [hb] at hc
          by_cases hs : s = "" <;> simp [hs] at hc
    · intro hin; exact absurd hin h

theorem checkResponse_nonempty_body (resp : HttpResponse) (bodyStr : String)
    (hb : resp.body = some (Except.ok bodyStr)) (hne : bodyStr ≠ "")
    (hfail : ¬(200 ≤ resp.statusCode ∧ resp.statusCode < 300)) :
    checkResponse resp = some bodyStr := by
  unfold checkResponse
  simp [if_neg hfail, hb, hne]

theorem checkResponse_empty_body (resp : HttpResponse)
    (hb : resp.body = none ∨ resp.body = some (Except.ok ""))
    (hfail : ¬(200 ≤ resp.statusCode ∧ resp.statusCode < 300)) :
    checkResponse resp = some resp.status := by
  unfold checkResponse
  cases hb with
  | inl h => simp [if_neg hfail, h]
  | inr h => simp [if_neg hfail, h]

theorem checkResponse_read_error (resp : HttpResponse) (readErr : String)
    (hb : resp.body = some (Except.error readErr))
    (hfail : ¬(200 ≤ resp.statusCode ∧ resp.statusCode < 300)) :
    checkResponse resp =
      some (readErr ++ " (failed to read response body); " ++ resp.status) := by
  unfold checkResponse
  simp [if_neg hfail, hb]

/-- XML tree: elements (attributes are ignored by this client) and character
data. -/
inductive XmlNode where
  | elem (name : String) (children : List XmlNode)
  | text (s : String)
  deriving Repr, Inhabited

/-- Characters accepted in an XML tag name, as this client needs them. -/
def nameChar (c : Char) : Bool :=
  c.isAlphanum || c == '-' || c == '_' || c == ':' || c == '.'

/-- Split a character list at the first character failing p. -/
def spanP (p : Char → Bool) : List Char → List Char × List Char
  | [] => ([], [])
  | c :: cs =>
    if p c then
      let r := spanP p cs
      (c :: r.1, r.2)
    else ([], c :: cs)

/-- Skip the attribute region of a start tag up to the closing angle bracket;
returns whether the tag was self-closing, and the rest of the input. -/
def skipAttrsAux : Nat → List Char → Except String (Bool × List Char)
  | 0, _ => Except.error "xml: tag not terminated"
  | _ + 1, [] => Except.error "xml: unexpected EOF in tag"
  | fuel + 1, c :: cs =>
    if c == '>' then Except.ok (false, cs)
    else if c == '/' then
      match cs with
      | '>' :: rest => Except.ok (true, rest)
      | _ => skipAttrsAux fuel cs
    else if c == '"' then
      match spanP (fun d => d != '"') cs with
      | (_, []) => Except.error "xml: attribute value not terminated"
      | (_, _ :: rest) => skipAttrsAux fuel rest
    else skipAttrsAux fuel cs

/-- Undo the XML escaping of character data: the named entities plus the
numeric forms Go emits for quote, apostrophe, tab, newline and return. -/
def xmlUnescapeAux : Nat → List Char → List Char
  | 0, cs => cs
  | _ + 1, [] => []
  | fuel + 1, c :: cs =>
    if c == '&' then
      if cs.take 3 == ['l', 't', ';'] then '<' :: xmlUnescapeAux fuel (cs.drop 3)
      else if cs.take 3 == ['g', 't', ';'] then '>' :: xmlUnescapeAux fuel (cs.drop 3)
      else if cs.take 4 == ['a', 'm', 'p', ';'] then '&' :: xmlUnescapeAux fuel (cs.drop 4)
      else if cs.take 5 == ['q', 'u', 'o', 't', ';'] then
        Char.ofNat 34 :: xmlUnescapeAux fuel (cs.drop 5)
      else if cs.take 5 == ['a', 'p', 'o', 's', ';'] then
        Char.ofNat 39 :: xmlUnescapeAux fuel (cs.drop 5)
      else if cs.take 4 == ['#', '3', '9', ';'] then
        Char.ofNat 39 :: xmlUnescapeAux fuel (cs.drop 4)
      else if cs.take 4 == ['#', '3', '4', ';'] then
        Char.ofNat 34 :: xmlUnescapeAux fuel (cs.drop 4)
      else if cs.take 4 == ['#', 'x', '9', ';'] then
        Char.ofNat 9 :: xmlUnescapeAux fuel (cs.drop 4)
      else if cs.take 4 == ['#', 'x', 'A', ';'] then
        Char.ofNat 10 :: xmlUnescapeAux fuel (cs.drop 4)
      else if cs.take 4 == ['#', 'x', 'D', ';'] then
        Char.ofNat 13 :: xmlUnescapeAux fuel (cs.drop 4)
      else c :: xmlUnescapeAux fuel cs
    else c :: xmlUnescapeAux fuel cs

def xmlUnescape (cs : List Char) : String := String.mk (xmlUnescapeAux cs.length cs)

/-- Skip past the terminator of an XML processing instruction. -/
def dropPastPIAux : Nat → List Char → Except String (List Char)
  | 0, _ => Except.error "xml: processing instruction not terminated"
  | _ + 1, [] => Except.error "xml: processing instruction not terminated"
  | fuel + 1, c :: cs =>
    if c == '?' then
      match cs with
      | '>' :: rest => Except.ok rest
      | _ => dropPastPIAux fuel cs
    else dropPastPIAux fuel cs

/-- Skip past the terminator of a comment or doctype declaration. -/
def dropPastBangAux : Nat → List Char → Except String (List Char)
  | 0, _ => Except.error "xml: declaration not terminated"
  | _ + 1, [] => Except.error "xml: declaration not terminated"
  | fuel + 1, c :: cs =>
    if c == '>' then Except.ok cs else dropPastBangAux fuel cs

/-- Parse a sequence of sibling XML nodes; stops (without consuming) at a
closing tag or at the end of input.  Processing instructions, comments and
doctype declarations are skipped, as the Go decoder skips them. -/
def parseNodesAux : Nat → List Char → Except String (List XmlNode × List Char)
  | 0, _ => Except.error "xml: out of fuel"
  | _ + 1, [] => Except.ok ([], [])
  | fuel + 1, '<' :: rest =>
    match rest with
    | '/' :: r2 => Except.ok ([], '<' :: '/' :: r2)
    | '?' :: r2 =>
      match dropPastPIAux r2.length r2 with
      | Except.error e => Except.error e
      | Except.ok r3 => parseNodesAux fuel r3
    | '!' :: r2 =>
      match dropPastBangAux r2.length r2 with
      | Except.error e => Except.error e
      | Except.ok r3 => parseNodesAux fuel r3
    | _ =>
      match spanP nameChar rest with
      | ([], _) => Except.error "xml: malformed start tag"
      | (nmChars, afterName) =>
        match skipAttrsAux afterName.length afterName with
        | Except.error e => Except.error e
        | Except.ok (selfClosing, afterTag) =>
          if selfClosing then
            match parseNodesAux fuel afterTag with
            | Except.error e => Except.error e
            | Except.ok (sibs, rem) =>
              Except.ok (XmlNode.elem (String.mk nmChars) [] :: sibs, rem)
          else
            match parseNodesAux fuel afterTag with
            | Except.error e => Except.error e
            | Except.ok (children, rem) =>
              match rem with
              | '<' :: '/' :: r3 =>
                match spanP nameChar r3 with
                | (nm2Chars, afterName2) =>
                  match (spanP (fun d => d == ' ') afterName2).2 with
                  | '>' :: r4 =>
                    if nm2Chars == nmChars then
                      match parseNodesAux fuel r4 with
                      | Except.error e => Except.error e
                      | Except.ok (sibs, rem2) =>
                        Except.ok (XmlNode.elem (String.mk nmChars) children :: sibs, rem2)
                    else Except.error "xml: mismatched closing tag"
                  | _ => Except.error "xml: malformed closing tag"
              | _ => Except.error "xml: element not closed"
  | fuel + 1, c :: cs =>
    match spanP (fun d => d != '<') (c :: cs) with
    | (txt, rem) =>
      match parseNodesAux fuel rem with
      | Except.error e => Except.error e
      | Except.ok (sibs, rem2) =>
        Except.ok (XmlNode.text (xmlUnescape txt) :: sibs, rem2)

/-- Parse an XML document into its list of top-level nodes. -/
def parseXmlNodes (s : String) : Except String (List XmlNode) :=
  match parseNodesAux (s.length + 8) s.toList with
  | Except.error e => Except.error e
  | Except.ok (ns, []) => Except.ok ns
  | Except.ok (_, _ :: _) => Except.error "xml: unexpected closing tag"

/-- The root element of a parsed document: the first element among the
top-level nodes, skipping character data, as the Go decoder does. -/
def firstElem : List XmlNode → Option (String × List XmlNode)
  | [] => none
  | XmlNode.elem n cs :: _ => some (n, cs)
  | XmlNode.text _ :: rest => firstElem rest

/-- The characters after the last colon, for namespace-qualified names. -/
def afterLastColonAux : List Char → List Char → List Char
  | acc, [] => acc.reverse
  | _, ':' :: cs => afterLastColonAux [] cs
  | acc, c :: cs => afterLastColonAux (c :: acc) cs

/-- The local part of a possibly namespace-qualified XML name. -/
def localName (n : String) : String :=
  String.mk (afterLastColonAux [] n.toList)

/-- The children lists of the child elements carrying the given local name,
in document order. -/
def elemsNamed (nm : String) (children : List XmlNode) : List (List XmlNode) :=
  children.filterMap fun n =>
    match n with
    | XmlNode.elem n2 cs => if localName n2 == nm then some cs else none
    | XmlNode.text _ => none

/-- Concatenated character data directly below an element. -/
def textContent (children : List XmlNode) : String :=
  String.join (children.filterMap fun n =>
    match n with
    | XmlNode.text s => some s
    | XmlNode.elem _ _ => none)

/-- The character data of the last child element with the given name. -/
def lastNamedText (nm : String) (children : List XmlNode) : Option String :=
  (elemsNamed nm children).foldl (fun _ cs => some (textContent cs)) none

/-- Go semantics of decoding a child element into a string struct field:
absent yields the zero value, repeated occurrences keep the last. -/
def stringField (nm : String) (children : List XmlNode) : String :=
  match lastNamedText nm children with
  | none => ""
  | some s => s

/-- Digits of a decimal literal folded into a number. -/
def digitsToNatAux : Nat → List Char → Option Nat
  | acc, [] => some acc
  | acc, c :: cs =>
    if c.isDigit then digitsToNatAux (acc * 10 + (c.toNat - 48)) cs else none

/-- Parse a non-empty run of decimal digits. -/
def digitsToNat? : List Char → Option Nat
  | [] => none
  | cs => digitsToNatAux 0 cs

/-- Parse a decimal integer with an optional sign, as strconv accepts it. -/
def parseIntStr? (s : String) : Option Int :=
  match s.toList with
  | '-' :: cs => (digitsToNat? cs).map (fun n => -(n : Int))
  | '+' :: cs => (digitsToNat? cs).map (fun n => (n : Int))
  | cs => (digitsToNat? cs).map (fun n => (n : Int))

/-- Go semantics of decoding a child element into an int struct field. -/
def intField (nm : String) (children : List XmlNode) : Except String Int :=
  match lastNamedText nm children with
  | none => Except.ok 0
  | some s =>
    match parseIntStr? s with
    | some i => Except.ok i
    | none => Except.error ("cannot unmarshal integer from " ++ s)

/-- A civil timestamp in UTC: the shape a Go time.Time value takes after
decoding an RFC 3339 literal carrying the Z (UTC) designator. -/
structure DateTime where
  year : Nat
  month : Nat
  day : Nat
  hour : Nat
  minute : Nat
  second : Nat
  deriving Repr, DecidableEq

/-- The Unix epoch instant, the time the repository tests pin the clock to. -/
def epochDT : DateTime := ⟨1970, 1, 1, 0, 0, 0⟩

/-- The zero value of a Go time.Time. -/
def zeroDT : DateTime := ⟨1, 1, 1, 0, 0, 0⟩

/-- The decimal value of a fixed-width digit field of a timestamp literal. -/
def sliceNat? (cs : List Char) (a len : Nat) : Option Nat :=
  digitsToNat? ((cs.drop a).take len)

/-- Parse an RFC 3339 timestamp restricted to the UTC (Z) form, with an
optional fractional second field, as Go time.Time unmarshalling accepts it. -/
def parseRFC3339 (s : String) : Except String DateTime :=
  let cs := s.toList
  let sepOk := cs.get? 4 == some '-' && cs.get? 7 == some '-' &&
    cs.get? 10 == some 'T' && cs.get? 13 == some ':' && cs.get? 16 == some ':'
  let tailOk :=
    match cs.drop 19 with
    | ['Z'] => true
    | '.' :: more =>
      decide (more.length ≥ 2) && more.getLast? == some 'Z' &&
        more.dropLast.all Char.isDigit
    | _ => false
  match sliceNat? cs 0 4, sliceNat? cs 5 2, sliceNat? cs 8 2,
      sliceNat? cs 11 2, sliceNat? cs 14 2, sliceNat? cs 17 2 with
  | some y, some mo, some d, some h, some mi, some sec =>
    if sepOk && tailOk &&
        decide (1 ≤ mo ∧ mo ≤ 12 ∧ 1 ≤ d ∧ d ≤ 31 ∧ h < 24 ∧ mi < 60 ∧ sec < 61) then
      Except.ok ⟨y, mo, d, h, mi, sec⟩
    else Except.error ("cannot parse time " ++ s)
  | _, _, _, _, _, _ => Except.error ("cannot parse time " ++ s)

/-- Go semantics of decoding a child element into a time.Time struct field. -/
def timeField (nm : String) (children : List XmlNode) : Except String DateTime :=
  match lastNamedText nm children with
  | none => Except.ok zeroDT
  | some s => parseRFC3339 s

/-- Result of InitiateMultipartUpload (src/unnamed/part_001 lines 58 to 63). -/
structure InitiateMultipartUploadResult where
  bucket : String
  key : String
  uploadID : String
  deriving Repr, DecidableEq

/-- Decode per the struct tags of InitiateMultipartUploadResult: the root
element name must match, fields come from the Bucket, Key and UploadId
children, unknown elements are ignored. -/
def decodeInitiateResult (root : String × List XmlNode) :
    Except String InitiateMultipartUploadResult :=
  if localName root.1 == "InitiateMultipartUploadResult" then
    Except.ok
      { bucket := stringField "Bucket" root.2
      , key := stringField "Key" root.2
      , uploadID := stringField "UploadId" root.2 }
  else
    Except.error ("expected element type <InitiateMultipartUploadResult> but have <" ++
      localName root.1 ++ ">")

/-- One part entry of a CompleteMultipartUpload body
(src/unnamed/part_001 lines 130 to 134). -/
structure CompletePart where
  partNumber : Int
  etag : String
  deriving Repr, DecidableEq

/-- Request body of CompleteMultipartUpload (src/unnamed/part_001
lines 136 to 139). -/
structure CompleteMultipartUploadBody where
  parts : List CompletePart
  deriving Repr, DecidableEq

/-- Result shape of CompleteMultipartUpload (src/unnamed/part_001
lines 149 to 155). -/
structure CompleteMultipartUploadResult where
  location : String
  bucket : String
  key : String
  etag : String
  deriving Repr, DecidableEq

/-- Decode per the struct tags of CompleteMultipartUploadResult. -/
def decodeCompleteResult (root : String × List XmlNode) :
    Except String CompleteMultipartUploadResult :=
  if localName root.1 == "CompleteMultipartUploadResult" then
    Except.ok
      { location := stringField "Location" root.2
      , bucket := stringField "Bucket" root.2
      , key := stringField "Key" root.2
      , etag := stringField "ETag" root.2 }
  else
    Except.error ("expected element type <CompleteMultipartUploadResult> but have <" ++
      localName root.1 ++ ">")

/-- Modelled from the spec: the full ListUpload response entry (key, uploadId,
storageClass, initiated timestamp).  The snapshot under src declares only the
UploadId field; the remaining fields and their decoding come from the spec
table for ListMultipartUploads and the repository test
TestListMultipartUploads, whose client code is absent from src. -/
structure ListUpload where
  key : String
  uploadID : String
  storageClass : String
  initiated : DateTime
  deriving Repr, DecidableEq

/-- Decode one Upload element into a ListUpload. -/
def decodeListUpload (children : List XmlNode) : Except String ListUpload :=
  match timeField "Initiated" children with
  | Except.error e => Except.error e
  | Except.ok t =>
    Except.ok
      { key := stringField "Key" children
      , uploadID := stringField "UploadId" children
      , storageClass := stringField "StorageClass" children
      , initiated := t }

/-- Result of ListMultipartUploads (src/unnamed/part_001 lines 239 to 242):
the Upload children collected in document order. -/
structure ListMultipartUploadsResult where
  uploads : List ListUpload
  deriving Repr, DecidableEq

/-- Decode a list of elements one by one, stopping at the first failure, as
the Go decoder fills a slice field. -/
def mapExcept (f : α → Except String β) : List α → Except String (List β)
  | [] => Except.ok []
  | a :: l =>
    match f a with
    | Except.error e => Except.error e
    | Except.ok b =>
      match mapExcept f l with
      | Except.error e => Except.error e
      | Except.ok bs => Except.ok (b :: bs)

/-- Decode per the struct tags of ListMultipartUploadsResult. -/
def decodeListUploadsResult (root : String × List XmlNode) :
    Except String ListMultipartUploadsResult :=
  if localName root.1 == "ListMultipartUploadsResult" then
    match mapExcept decodeListUpload (elemsNamed "Upload" root.2) with
    | Except.error e => Except.error e
    | Except.ok us => Except.ok { uploads := us }
  else
    Except.error ("expected element type <ListMultipartUploadsResult> but have <" ++
      localName root.1 ++ ">")

/-- Result of ListObjectParts (src/unnamed/part_001 lines 279 to 281). -/
structure ListObjectPartsResult where
  parts : List CompletePart
  deriving Repr, DecidableEq

/-- Decode one Part element into a CompletePart. -/
def decodeCompletePartElem (children : List XmlNode) : Except String CompletePart :=
  match intField "PartNumber" children with
  | Except.error e => Except.error e
  | Except.ok n => Except.ok { partNumber := n, etag := stringField "ETag" children }

/-- Decode per the struct tags of ListObjectPartsResult; the struct carries
no XMLName field, so the root element name is not constrained. -/
def decodeListPartsResult (root : String × List XmlNode) :
    Except String ListObjectPartsResult :=
  match mapExcept decodeCompletePartElem (elemsNamed "Part" root.2) with
  | Except.error e => Except.error e
  | Except.ok ps => Except.ok { parts := ps }

/-- The root element the XML decoder extracts from the response body on the
success path.  A nil body or a body with no element yields the EOF decode
failure and a failing body read surfaces as the read error, as with the Go
decoder. -/
def decodeRoot (resp : HttpResponse) : Except String (String × List XmlNode) :=
  match resp.body with
  | none => Except.error "EOF"
  | some (Except.error e) => Except.error e
  | some (Except.ok s) =>
    match parseXmlNodes s with
    | Except.error e => Except.error e
    | Except.ok ns =>
      match firstElem ns with
      | none => Except.error "EOF"
      | some root => Except.ok root

/-- Decode the response body as the given result shape. -/
def decodeAs (dec : (String × List XmlNode) → Except String α) (resp : HttpResponse) :
    Except String α :=
  match decodeRoot resp with
  | Except.error e => Except.error e
  | Except.ok root => dec root

/-- Model of Go Response.Write as used to dump the raw HTTP response for
diagnosis: status line, headers, blank line, body text. -/
def dumpResponse (resp : HttpResponse) : String :=
  "HTTP/1.1 " ++ resp.status ++ "\r\n" ++
  String.join (resp.headers.map fun kv => kv.1 ++ ": " ++ kv.2 ++ "\r\n") ++
  "\r\n" ++
  (match resp.body with
   | some (Except.ok s) => s
   | _ => "")

/-- The error message the operations build when the response body fails to
decode as the expected XML shape (src/unnamed/part_001 lines 89 to 94):
the decode failure followed by a dump of the raw response. -/
def xmlFailureMessage (e : String) (resp : HttpResponse) : String :=
  "failed to parse XML body from HTTP response: " ++ e ++ ". Response: " ++
    dumpResponse resp

/-- Response handling of InitiateMultipartUpload (src/unnamed/part_001
lines 78 to 95): status check, then XML decode of the result shape. -/
def initiateMultipartUpload (resp : HttpResponse) :
    Except String InitiateMultipartUploadResult :=
  match checkResponse resp with
  | some e => Except.error e
  | none =>
    match decodeAs decodeInitiateResult resp with
    | Except.error e => Except.error (xmlFailureMessage e resp)
    | Except.ok r => Except.ok r

/-- Response handling of UploadObjectPart (src/unnamed/part_001
lines 118 to 127): the status check alone, no body decode. -/
def uploadObjectPart (resp : HttpResponse) : Except String Unit :=
  match checkResponse resp with
  | some e => Except.error e
  | none => Except.ok ()

/-- Response handling of CompleteMultipartUpload (src/unnamed/part_001
lines 183 to 193): after the status check the code allocates a zero-valued
result and returns it without reading the response body. -/
def completeMultipartUpload (resp : HttpResponse) :
    Except String CompleteMultipartUploadResult :=
  match checkResponse resp with
  | some e => Except.error e
  | none => Except.ok { location := "", bucket := "", key := "", etag := "" }

/-- Response handling of AbortMultipartUpload (src/unnamed/part_001
lines 211 to 220): the status check alone, no body decode. -/
def abortMultipartUpload (resp : HttpResponse) : Except String Unit :=
  match checkResponse resp with
  | some e => Except.error e
  | none => Except.ok ()

/-- Response handling of ListMultipartUploads (src/unnamed/part_001
lines 253 to 270). -/
def listMultipartUploads (resp : HttpResponse) :
    Except String ListMultipartUploadsResult :=
  match checkResponse resp with
  | some e => Except.error e
  | none =>
    match decodeAs decodeListUploadsResult resp with
    | Except.error e => Except.error (xmlFailureMessage e resp)
    | Except.ok r => Except.ok r

/-- Response handling of ListObjectParts (src/unnamed/part_001
lines 292 to 309). -/
def listObjectParts (resp : HttpResponse) : Except String ListObjectPartsResult :=
  match checkResponse resp with
  | some e => Except.error e
  | none =>
    match decodeAs decodeListPartsResult resp with
    | Except.error e => Except.error (xmlFailureMessage e resp)
    | Except.ok r => Except.ok r

/-- Valid HTTP header token bytes, as net/textproto accepts them. -/
def validTokenChar (c : Char) : Bool :=
  c.isAlphanum ||
    [33, 35, 36, 37, 38, 39, 42, 43, 45, 46, 94, 95, 96, 124, 126].contains c.toNat

/-- Case folding into the canonical MIME header form: the first letter and
every letter following a hyphen upper case, the rest lower case. -/
def canonAux : Bool → List Char → List Char
  | _, [] => []
  | upper, c :: cs =>
    (if upper then c.toUpper else c.toLower) :: canonAux (c == '-') cs

/-- Model of textproto CanonicalMIMEHeaderKey: keys containing an invalid
byte are returned unchanged, otherwise the canonical case form. -/
def canonicalMIMEHeaderKey (s : String) : String :=
  if s.toList.all validTokenChar then String.mk (canonAux true s.toList) else s

/-- Model of net/http Header.Add: appends the value under the canonical key. -/
def headerAdd (hs : List (String × String)) (k v : String) : List (String × String) :=
  hs ++ [(canonicalMIMEHeaderKey k, v)]

def pad2 (n : Nat) : String := if n < 10 then "0" ++ toString n else toString n

/-- Days from the civil date to the Unix epoch (negative before 1970). -/
def daysFromCivil (y m d : Nat) : Int :=
  let yAdj : Int := (y : Int) - (if m ≤ 2 then 1 else 0)
  let era : Int := (if 0 ≤ yAdj then yAdj else yAdj - 399) / 400
  let yoe : Int := yAdj - era * 400
  let doy : Int := (153 * ((m : Int) + (if 2 < m then -3 else 9)) + 2) / 5 + (d : Int) - 1
  let doe : Int := yoe * 365 + yoe / 4 - yoe / 100 + doy
  era * 146097 + doe - 719468

def weekdayNames : List String := ["Sun", "Mon", "Tue", "Wed", "Thu", "Fri", "Sat"]

def monthNames : List String :=
  ["Jan", "Feb", "Mar", "Apr", "May", "Jun", "Jul", "Aug", "Sep", "Oct", "Nov", "Dec"]

/-- Modelled from the spec: the Date header value, the current time printed
in the HTTP date convention (RFC 1123) at UTC, exactly as the pinned-clock
repository tests expect it.  The client code holding the injectable clock is
absent from src; only its tests are present. -/
def formatRFC1123 (t : DateTime) : String :=
  weekdayNames.getD (((daysFromCivil t.year t.month t.day + 4) % 7).toNat) "" ++ ", " ++
  pad2 t.day ++ " " ++ monthNames.getD (t.month - 1) "" ++ " " ++ toString t.year ++ " " ++
  pad2 t.hour ++ ":" ++ pad2 t.minute ++ ":" ++ pad2 t.second ++ " UTC"

/-- An outgoing HTTP request as the client assembles it. -/
structure HttpRequest where
  method : String
  url : String
  headers : List (String × String)
  body : String
  deriving Repr, DecidableEq

/-- Request of InitiateMultipartUpload (src/unnamed/part_001 lines 49 to 54);
the custom metadata map is modelled as an association list in iteration
order. -/
structure InitiateMultipartUploadRequest where
  bucket : String
  key : String
  customMetadata : List (String × String) := []
  deriving Repr, DecidableEq

/-- Request of UploadObjectPart (src/unnamed/part_001 lines 98 to 107). -/
structure UploadObjectPartRequest where
  bucket : String
  key : String
  partNumber : Int
  uploadID : String
  partBody : String
  deriving Repr, DecidableEq

/-- Request of CompleteMultipartUpload (src/unnamed/part_001
lines 142 to 147). -/
structure CompleteMultipartUploadRequest where
  bucket : String
  key : String
  uploadID : String
  body : CompleteMultipartUploadBody
  deriving Repr, DecidableEq

/-- Request of AbortMultipartUpload (src/unnamed/part_001 lines 196 to 200). -/
structure AbortMultipartUploadRequest where
  bucket : String
  key : String
  uploadID : String
  deriving Repr, DecidableEq

/-- Request of ListMultipartUploads.  The bucket field is the snapshot under
src; the optional query fields (key-marker, max-uploads, the prefix filter,
upload-id-marker) are modelled from the spec, which appends each only when
set.  The default value means not set. -/
structure ListMultipartUploadsRequest where
  bucket : String
  keyMarker : String := ""
  maxUploads : Int := 0
  keyPrefix : String := ""
  uploadIdMarker : String := ""
  deriving Repr, DecidableEq

/-- Request of ListObjectParts.  Bucket, key and uploadID are the snapshot
under src; maxParts and partNumberMarker are modelled from the spec and the
repository test TestListObjectParts, appended only when positive. -/
structure ListObjectPartsRequest where
  bucket : String
  key : String
  uploadID : String
  maxParts : Int := 0
  partNumberMarker : Int := 0
  deriving Repr, DecidableEq

/-- XML escaping of character data as the Go encoder emits it. -/
def xmlEscapeChar (c : Char) : String :=
  if c == '&' then "&amp;"
  else if c == '<' then "&lt;"
  else if c == '>' then "&gt;"
  else if c == Char.ofNat 34 then "&#34;"
  else if c == Char.ofNat 39 then "&#39;"
  else if c == Char.ofNat 9 then "&#x9;"
  else if c == Char.ofNat 10 then "&#xA;"
  else if c == Char.ofNat 13 then "&#xD;"
  else String.mk [c]

def xmlEscape (s : String) : String := String.join (s.toList.map xmlEscapeChar)

def indentPad (depth : Nat) : String := String.join (List.replicate depth "  ")

def isTextNode : XmlNode → Bool
  | XmlNode.text _ => true
  | XmlNode.elem _ _ => false

mutual

/-- Render an XML tree the way the Go encoder under Indent("", "  ") prints
it: an element whose children are elements opens a two-space indented block,
a text-only element prints inline, and no trailing newline is added. -/
def renderNode (depth : Nat) : XmlNode → String
  | XmlNode.text s => xmlEscape s
  | XmlNode.elem nm cs =>
    if cs.all isTextNode then
      "<" ++ nm ++ ">" ++ renderInline depth cs ++ "</" ++ nm ++ ">"
    else
      "<" ++ nm ++ ">" ++ renderBlock depth cs ++ "\n" ++ indentPad depth ++
        "</" ++ nm ++ ">"

/-- Render a run of inline children. -/
def renderInline (depth : Nat) : List XmlNode → String
  | [] => ""
  | c :: cs => renderNode depth c ++ renderInline depth cs

/-- Render a run of block children, one per line, one level deeper. -/
def renderBlock (depth : Nat) : List XmlNode → String
  | [] => ""
  | c :: cs =>
    "\n" ++ indentPad (depth + 1) ++ renderNode (depth + 1) c ++ renderBlock depth cs

end

/-- The Part element one CompletePart marshals to: a PartNumber child and an
ETag child, per the struct tags. -/
def partNode (p : CompletePart) : XmlNode :=
  XmlNode.elem "Part"
    [ XmlNode.elem "PartNumber" [XmlNode.text (toString p.partNumber)]
    , XmlNode.elem "ETag" [XmlNode.text p.etag] ]

/-- The XML document CompleteMultipartUpload serializes: root element
CompleteMultipartUpload holding one Part child per part in caller order,
each Part holding a PartNumber and an ETag child. -/
def completeBodyDoc (parts : List CompletePart) : XmlNode :=
  XmlNode.elem "CompleteMultipartUpload" (parts.map partNode)

/-- Serialization of the CompleteMultipartUpload request body as the Go
encoder under Indent("", "  ") emits it (src/unnamed/part_001
lines 165 to 171). -/
def serializeCompleteBody (b : CompleteMultipartUploadBody) : String :=
  renderNode 0 (completeBodyDoc b.parts)

def baseUrl : String := "https://storage.googleapis.com/"

/-- Request building of InitiateMultipartUpload (src/unnamed/part_001
lines 67 to 76): URL with bucket and key verbatim plus the uploads marker,
and one x-goog-meta header per metadata entry.  The Date header is modelled
from the spec (injectable clock, RFC 1123 at UTC); the snapshot under src
omits it while the repository tests expect it. -/
def buildInitiateRequest (now : DateTime) (req : InitiateMultipartUploadRequest) :
    HttpRequest :=
  { method := "POST"
  , url := baseUrl ++ req.bucket ++ "/" ++ req.key ++ "?uploads"
  , headers := req.customMetadata.foldl
      (fun hs kv => headerAdd hs ("x-goog-meta-" ++ kv.1) kv.2)
      (headerAdd [] "Date" (formatRFC1123 now))
  , body := "" }

/-- Request building of UploadObjectPart (src/unnamed/part_001
lines 112 to 113); the Date header is modelled from the spec. -/
def buildUploadPartRequest (now : DateTime) (req : UploadObjectPartRequest) :
    HttpRequest :=
  { method := "PUT"
  , url := baseUrl ++ req.bucket ++ "/" ++ req.key ++ "?partNumber=" ++
      toString req.partNumber ++ "&uploadId=" ++ req.uploadID
  , headers := headerAdd [] "Date" (formatRFC1123 now)
  , body := req.partBody }

/-- Request building of CompleteMultipartUpload (src/unnamed/part_001
lines 164 to 181): the serialized XML body, and a header literally keyed
ContentLength (set by direct map assignment, bypassing canonicalization)
holding the byte length of the serialized body.  The Date header is
modelled from the spec. -/
def buildCompleteRequest (now : DateTime) (req : CompleteMultipartUploadRequest) :
    HttpRequest :=
  let strBody := serializeCompleteBody req.body
  { method := "POST"
  , url := baseUrl ++ req.bucket ++ "/" ++ req.key ++ "?uploadId=" ++ req.uploadID
  , headers := headerAdd [] "Date" (formatRFC1123 now) ++
      [("ContentLength", toString strBody.utf8ByteSize)]
  , body := strBody }

/-- Request building of AbortMultipartUpload (src/unnamed/part_001
lines 205 to 206); the Date header is modelled from the spec. -/
def buildAbortRequest (now : DateTime) (req : AbortMultipartUploadRequest) :
    HttpRequest :=
  { method := "DELETE"
  , url := baseUrl ++ req.bucket ++ "/" ++ req.key ++ "?uploadId=" ++ req.uploadID
  , headers := headerAdd [] "Date" (formatRFC1123 now)
  , body := "" }

/-- Request building of ListMultipartUploads (src/unnamed/part_001
line 247), with the optional query parameters modelled from the spec:
each appended only when set, in the order the spec lists them. -/
def buildListUploadsRequest (now : DateTime) (req : ListMultipartUploadsRequest) :
    HttpRequest :=
  { method := "GET"
  , url := baseUrl ++ req.bucket ++ "/?uploads" ++
      (if req.keyMarker != "" then "&key-marker=" ++ req.keyMarker else "") ++
      (if 0 < req.maxUploads then "&max-uploads=" ++ toString req.maxUploads else "") ++
      (if req.keyPrefix != "" then "&prefix=" ++ req.keyPrefix else "") ++
      (if req.uploadIdMarker != "" then "&upload-id-marker=" ++ req.uploadIdMarker else "")
  , headers := headerAdd [] "Date" (formatRFC1123 now)
  , body := "" }

/-- Request building of ListObjectParts (src/unnamed/part_001 line 286),
with max-parts and part-number-marker modelled from the spec and the
repository test TestListObjectParts: appended only when positive. -/
def buildListPartsRequest (now : DateTime) (req : ListObjectPartsRequest) :
    HttpRequest :=
  { method := "GET"
  , url := baseUrl ++ req.bucket ++ "/" ++ req.key ++ "?uploadId=" ++ req.uploadID ++
      (if 0 < req.maxParts then "&max-parts=" ++ toString req.maxParts else "") ++
      (if 0 < req.partNumberMarker then
        "&part-number-marker=" ++ toString req.partNumberMarker else "")
  , headers := headerAdd [] "Date" (formatRFC1123 now)
  , body := "" }

/-- The path portion of a built URL: what follows the fixed host, up to the
query separator. -/
def urlPath (url : String) : String :=
  String.mk (((url.toList).drop baseUrl.length).takeWhile (fun c => c != '?'))

/-- The query portion of a built URL: what follows the first question mark. -/
def urlQuery (url : String) : String :=
  match ((url.toList).drop baseUrl.length).dropWhile (fun c => c != '?') with
  | [] => ""
  | _ :: rest => String.mk rest

/-- Whether a call succeeded. -/
def exceptOk : Except String α → Bool
  | Except.ok _ => true
  | Except.error _ => false

theorem initiate_status_error (resp : HttpResponse) (e : String)
    (h : checkResponse resp = some e) :
    initiateMultipartUpload resp = Except.error e := by
  simp [initiateMultipartUpload, h]

theorem uploadPart_status_error (resp : HttpResponse) (e : String)
    (h : checkResponse resp = some e) :
    uploadObjectPart resp = Except.error e := by
  simp [uploadObjectPart, h]

theorem complete_status_error (resp : HttpResponse) (e : String)
    (h : checkResponse resp = some e) :
    completeMultipartUpload resp = Except.error e := by
  simp [completeMultipartUpload, h]

theorem abort_status_error (resp : HttpResponse) (e : String)
    (h : checkResponse resp = some e) :
    abortMultipartUpload resp = Except.error e := by
  simp [abortMultipartUpload, h]

theorem listUploads_status_error (resp : HttpResponse) (e : String)
    (h : checkResponse resp = some e) :
    listMultipartUploads resp = Except.error e := by
  simp [listMultipartUploads, h]

theorem listParts_status_error (resp : HttpResponse) (e : String)
    (h : checkResponse resp = some e) :
    listObjectParts resp = Except.error e := by
  simp [listObjectParts, h]

/-- A 200 response carrying a body that is not XML: the status is inside
[200,300) yet the decoding operations fail, with a message that is not the
body text. -/
def respBadXml : HttpResponse :=
  { statusCode := 200, status := "200 OK"
  , body := some (Except.ok "this is not xml"), headers := [] }

/-- C1.  Counterexample to the claim as stated: on a 200 response whose
body does not decode as XML, InitiateMultipartUpload fails even though the
status code lies inside [200,300), and its error message is not the
response body text. -/
theorem c1_status_iff_counterexample :
    (200 ≤ respBadXml.statusCode ∧ respBadXml.statusCode < 300) ∧
    exceptOk (initiateMultipartUpload respBadXml) = false ∧
    initiateMultipartUpload respBadXml ≠ Except.error "this is not xml" := by
  refine ⟨by decide, by decide, by decide⟩

/-- C1 (amended).  The status check fails exactly when the status code is
outside [200,300); the operations without a body decode step succeed exactly
when it passes, every operation returns the status-check message verbatim
when it fails, and that message is the body text when the body is readable
and non-empty, and the HTTP status text when the body is empty or absent. -/
theorem c1_status_check_amended (resp : HttpResponse) :
    (checkResponse resp = none ↔ 200 ≤ resp.statusCode ∧ resp.statusCode < 300) ∧
    (checkResponse resp = none →
      uploadObjectPart resp = Except.ok () ∧
      abortMultipartUpload resp = Except.ok () ∧
      exceptOk (completeMultipartUpload resp) = true) ∧
    (∀ e, checkResponse resp = some e →
      uploadObjectPart resp = Except.error e ∧
      abortMultipartUpload resp = Except.error e ∧
      completeMultipartUpload resp = Except.error e ∧
      initiateMultipartUpload resp = Except.error e ∧
      listMultipartUploads resp = Except.error e ∧
      listObjectParts resp = Except.error e) ∧
    (∀ s, resp.body = some (Except.ok s) → s ≠ "" →
      ¬(200 ≤ resp.statusCode ∧ resp.statusCode < 300) →
      checkResponse resp = some s) ∧
    ((resp.body = none ∨ resp.body = some (Except.ok "")) →
      ¬(200 ≤ resp.statusCode ∧ resp.statusCode < 300) →
      checkResponse resp = some resp.status) := by
  refine ⟨checkResponse_none_iff resp, ?_, ?_, ?_, ?_⟩
  · intro h
    exact ⟨by simp [uploadObjectPart, h], by simp [abortMultipartUpload, h],
      by simp [completeMultipartUpload, h, exceptOk]⟩
  · intro e he
    exact ⟨uploadPart_status_error resp e he, abort_status_error resp e he,
      complete_status_error resp e he, initiate_status_error resp e he,
      listUploads_status_error resp e he, listParts_status_error resp e he⟩
  · intro s hb hne hout
    exact checkResponse_nonempty_body resp s hb hne hout
  · intro hb hout
    exact checkResponse_empty_body resp hb hout

/-- C1 witness: the amended statement applied to the 404 response of the
repository test TestUploadObjectPart (failing status, readable non-empty
body) and to a bare 204 success. -/
theorem c1_status_check_amended_witness :
    checkResponse { statusCode := 404, status := "Not Found"
                  , body := some (Except.ok "Bucket not found."), headers := [] } =
      some "Bucket not found." ∧
    uploadObjectPart { statusCode := 404, status := "Not Found"
                     , body := some (Except.ok "Bucket not found."), headers := [] } =
      Except.error "Bucket not found." ∧
    abortMultipartUpload { statusCode := 204, status := "No Content"
                         , body := none, headers := [] } = Except.ok () := by
  refine ⟨?_, ?_, ?_⟩
  · exact (c1_status_check_amended _).2.2.2.1 "Bucket not found." rfl (by decide) (by decide)
  · exact ((c1_status_check_amended _).2.2.1 "Bucket not found." (by decide)).1
  · exact ((c1_status_check_amended _).2.1 (by decide)).2.1

/-- C10.  When a failing-status response has a body whose read fails, every
operation returns an error wrapping the read error and carrying the HTTP
status text, rather than any body text. -/
theorem c10_read_failure_wraps (resp : HttpResponse) (e : String)
    (hb : resp.body = some (Except.error e))
    (hfail : ¬(200 ≤ resp.statusCode ∧ resp.statusCode < 300)) :
    initiateMultipartUpload resp =
      Except.error (e ++ " (failed to read response body); " ++ resp.status) ∧
    uploadObjectPart resp =
      Except.error (e ++ " (failed to read response body); " ++ resp.status) ∧
    completeMultipartUpload resp =
      Except.error (e ++ " (failed to read response body); " ++ resp.status) ∧
    abortMultipartUpload resp =
      Except.error (e ++ " (failed to read response body); " ++ resp.status) ∧
    listMultipartUploads resp =
      Except.error (e ++ " (failed to read response body); " ++ resp.status) ∧
    listObjectParts resp =
      Except.error (e ++ " (failed to read response body); " ++ resp.status) := by
  have hc := checkResponse_read_error resp e hb hfail
  exact ⟨initiate_status_error resp _ hc, uploadPart_status_error resp _ hc,
    complete_status_error resp _ hc, abort_status_error resp _ hc,
    listUploads_status_error resp _ hc, listParts_status_error resp _ hc⟩

/-- C10 witness: a 500 response whose body read fails with a mock error. -/
theorem c10_read_failure_wraps_witness :
    initiateMultipartUpload { statusCode := 500, status := "Internal Server Error"
                            , body := some (Except.error "mock read error")
                            , headers := [] } =
      Except.error
        "mock read error (failed to read response body); Internal Server Error" := by
  exact (c10_read_failure_wraps
    { statusCode := 500, status := "Internal Server Error"
    , body := some (Except.error "mock read error"), headers := [] }
    "mock read error" rfl (by decide)).1

/-- The 200 response body of the repository test TestCompleteMultipartUpload. -/
def completeRespXml : String :=
  "<?xml version=\"1.0\" encoding=\"UTF-8\"?>\n<CompleteMultipartUploadResult xmlns=\"http://s3.amazonaws.com/doc/2006-03-01/\">\n  <Location>https://storage.googleapis.com/test-bucket/object.txt</Location>\n  <Bucket>test-bucket</Bucket>\n  <Key>object.txt</Key>\n  <ETag>etag</ETag>\n</CompleteMultipartUploadResult>"

/-- The 200 response of the repository test TestCompleteMultipartUpload. -/
def completeRespEx : HttpResponse :=
  { statusCode := 200, status := "OK", body := some (Except.ok completeRespXml)
  , headers := [] }

/-- C2.  Evaluation at the failing input: on the 2xx response of the
repository test TestCompleteMultipartUpload, whose body is a well-formed
CompleteMultipartUploadResult document, the operation returns the
zero-valued result (the code never reads the body), although decoding that
body under the declared result shape yields the documented field values the
test expects. -/
theorem c2_complete_ignores_body :
    (200 ≤ completeRespEx.statusCode ∧ completeRespEx.statusCode < 300) ∧
    completeMultipartUpload completeRespEx =
      Except.ok { location := "", bucket := "", key := "", etag := "" } ∧
    decodeAs decodeCompleteResult completeRespEx =
      Except.ok { location := "https://storage.googleapis.com/test-bucket/object.txt"
                , bucket := "test-bucket", key := "object.txt", etag := "etag" } := by
  refine ⟨by decide, by decide, by decide⟩

/-- C9.  On a response that passes the status check, each decoding
operation turns a decode failure e into an error whose message is the fixed
parse-failure text followed by e followed by a dump of the raw HTTP
response. -/
theorem c9_decode_error_message (resp : HttpResponse) (e : String)
    (hok : checkResponse resp = none) :
    xmlFailureMessage e resp =
      "failed to parse XML body from HTTP response: " ++ e ++ ". Response: " ++
        dumpResponse resp ∧
    (decodeAs decodeInitiateResult resp = Except.error e →
      initiateMultipartUpload resp = Except.error (xmlFailureMessage e resp)) ∧
    (decodeAs decodeListUploadsResult resp = Except.error e →
      listMultipartUploads resp = Except.error (xmlFailureMessage e resp)) ∧
    (decodeAs decodeListPartsResult resp = Except.error e →
      listObjectParts resp = Except.error (xmlFailureMessage e resp)) := by
  refine ⟨rfl, ?_, ?_, ?_⟩
  · intro hdec
    simp [initiateMultipartUpload, hok, hdec]
  · intro hdec
    simp [listMultipartUploads, hok, hdec]
  · intro hdec
    simp [listObjectParts, hok, hdec]

/-- C9 witness: the three decoding operations applied to a 200 response
whose body holds no XML element, spelling out the resulting message with
its embedded EOF decode failure and response dump. -/
theorem c9_decode_error_message_witness :
    initiateMultipartUpload respBadXml =
      Except.error
        "failed to parse XML body from HTTP response: EOF. Response: HTTP/1.1 200 OK\r\n\r\nthis is not xml" ∧
    listMultipartUploads respBadXml =
      Except.error
        "failed to parse XML body from HTTP response: EOF. Response: HTTP/1.1 200 OK\r\n\r\nthis is not xml" ∧
    listObjectParts respBadXml =
      Except.error
        "failed to parse XML body from HTTP response: EOF. Response: HTTP/1.1 200 OK\r\n\r\nthis is not xml" := by
  have h := c9_decode_error_message respBadXml "EOF" (by decide)
  exact ⟨(h.2.1 (by decide)).trans (by decide),
    (h.2.2.1 (by decide)).trans (by decide),
    (h.2.2.2 (by decide)).trans (by decide)⟩

theorem decodeListUpload_initiated (u : List XmlNode) (r : ListUpload)
    (h : decodeListUpload u = Except.ok r) :
    timeField "Initiated" u = Except.ok r.initiated := by
  unfold decodeListUpload at h
  cases ht : timeField "Initiated" u with
  | error e => rw [ht] at h; exact absurd h (by simp)
  | ok t =>
    rw [ht] at h
    simp only [Except.ok.injEq] at h
    rw [← h]

/-- C8.  A 2xx ListMultipartUploads response whose body decodes with root
element ListMultipartUploadsResult and exactly two Upload entries yields a
result holding exactly those two entries in document order (other child
elements being ignored), and each decoded entry carries the UTC instant
decoded from its Initiated timestamp. -/
theorem c8_list_uploads_parse (resp : HttpResponse)
    (hok : checkResponse resp = none)
    (root : String × List XmlNode)
    (hroot : decodeRoot resp = Except.ok root)
    (hname : localName root.1 = "ListMultipartUploadsResult")
    (u1 u2 : List XmlNode)
    (hups : elemsNamed "Upload" root.2 = [u1, u2])
    (r1 r2 : ListUpload)
    (h1 : decodeListUpload u1 = Except.ok r1)
    (h2 : decodeListUpload u2 = Except.ok r2) :
    listMultipartUploads resp = Except.ok { uploads := [r1, r2] } ∧
    timeField "Initiated" u1 = Except.ok r1.initiated ∧
    timeField "Initiated" u2 = Except.ok r2.initiated := by
  have hdec : decodeAs decodeListUploadsResult resp =
      Except.ok { uploads := [r1, r2] } := by
    unfold decodeAs
    rw [hroot]
    simp [decodeListUploadsResult, hname, hups, mapExcept, h1, h2]
  refine ⟨?_, decodeListUpload_initiated u1 r1 h1, decodeListUpload_initiated u2 r2 h2⟩
  simp [listMultipartUploads, hok, hdec]

/-- The 200 response body of the repository test TestListMultipartUploads. -/
def listRespXml : String :=
  "<?xml version=\"1.0\" encoding=\"UTF-8\"?>\n<ListMultipartUploadsResult xmlns=\"http://s3.amazonaws.com/doc/2006-03-01/\">\n  <Bucket>travel-maps</Bucket>\n  <KeyMarker></KeyMarker>\n  <UploadIdMarker></UploadIdMarker>\n  <NextKeyMarker>cannes.jpeg</NextKeyMarker>\n  <NextUploadIdMarker>YW55IGlkZWEgd2h5IGVsdmluZydzIHVwbG9hZCBmYWlsZWQ</NextUploadIdMarker>\n  <MaxUploads>2</MaxUploads>\n  <IsTruncated>true</IsTruncated>\n  <Upload>\n    <Key>paris.jpeg</Key>\n    <UploadId>VXBsb2FkIElEIGZvciBlbHZpbmcncyBteS1tb3ZpZS5tMnRzIHVwbG9hZA</UploadId>\n    <StorageClass>STANDARD</StorageClass>\n    <Initiated>2021-11-10T20:48:33.000Z</Initiated>\n  </Upload>\n  <Upload>\n    <Key>tokyo.jpeg</Key>\n    <UploadId>YW55IGlkZWEgd2h5IGVsdmluZydzIHVwbG9hZCBmYWlsZWQ</UploadId>\n    <StorageClass>STANDARD</StorageClass>\n    <Initiated>2021-11-10T20:49:33.000Z</Initiated>\n  </Upload>\n</ListMultipartUploadsResult>\n"

/-- The 200 response of the repository test TestListMultipartUploads. -/
def listRespEx : HttpResponse :=
  { statusCode := 200, status := "OK", body := some (Except.ok listRespXml)
  , headers := [] }

/-- The decoded root of that response. -/
def listRootEx : String × List XmlNode :=
  match decodeRoot listRespEx with
  | Except.ok r => r
  | Except.error _ => ("", [])

/-- The children of the first Upload entry of that response. -/
def listU1 : List XmlNode := (elemsNamed "Upload" listRootEx.2).getD 0 []

/-- The children of the second Upload entry of that response. -/
def listU2 : List XmlNode := (elemsNamed "Upload" listRootEx.2).getD 1 []

/-- The first decoded Upload entry: the paris.jpeg upload initiated at the
UTC instant 2021-11-10 20:48:33. -/
def parisUpload : ListUpload :=
  { key := "paris.jpeg"
  , uploadID := "VXBsb2FkIElEIGZvciBlbHZpbmcncyBteS1tb3ZpZS5tMnRzIHVwbG9hZA"
  , storageClass := "STANDARD"
  , initiated := { year := 2021, month := 11, day := 10, hour := 20, minute := 48, second := 33 } }

/-- The second decoded Upload entry: the tokyo.jpeg upload initiated at the
UTC instant 2021-11-10 20:49:33. -/
def tokyoUpload : ListUpload :=
  { key := "tokyo.jpeg"
  , uploadID := "YW55IGlkZWEgd2h5IGVsdmluZydzIHVwbG9hZCBmYWlsZWQ"
  , storageClass := "STANDARD"
  , initiated := { year := 2021, month := 11, day := 10, hour := 20, minute := 49, second := 33 } }

/-- C8 witness, instantiated on the response body of the repository test
TestListMultipartUploads: two uploads, in document order, each with its
Initiated timestamp decoded to the expected UTC instant. -/
theorem c8_list_uploads_parse_witness :
    listMultipartUploads listRespEx =
      Except.ok { uploads := [parisUpload, tokyoUpload] } :=
  (c8_list_uploads_parse listRespEx (by decide) listRootEx (by rfl) (by decide)
    listU1 listU2 (by rfl) parisUpload tokyoUpload (by decide) (by decide)).1

/-- The printed form of one Part block inside the serialized body. -/
def partBlockStr (p : CompletePart) : String :=
  "\n  <Part>\n    <PartNumber>" ++ xmlEscape (toString p.partNumber) ++
  "</PartNumber>\n    <ETag>" ++ xmlEscape p.etag ++ "</ETag>\n  </Part>"

/-- Concatenation of the printed forms of a list of items. -/
def concatMap (f : α → String) : List α → String
  | [] => ""
  | a :: l => f a ++ concatMap f l

theorem renderBlock_parts (parts : List CompletePart) :
    renderBlock 0 (parts.map partNode) = concatMap partBlockStr parts := by
  induction parts with
  | nil => rfl
  | cons p ps ih =>
    apply String.ext
    simp [renderBlock, renderNode, renderInline, partNode, partBlockStr, concatMap,
      indentPad, isTextNode, String.join, List.foldl, ih, String.data_append]

theorem isTextNode_partNode (p : CompletePart) : isTextNode (partNode p) = false := rfl

theorem serialize_nonempty (parts : List CompletePart) (hne : parts ≠ []) :
    serializeCompleteBody { parts := parts } =
      "<CompleteMultipartUpload>" ++ concatMap partBlockStr parts ++
        "\n</CompleteMultipartUpload>" := by
  match parts, hne with
  | p :: ps, _ =>
    rw [serializeCompleteBody, completeBodyDoc]
    rw [show renderNode 0 (XmlNode.elem "CompleteMultipartUpload" ((p :: ps).map partNode)) =
      (if ((p :: ps).map partNode).all isTextNode then
        "<" ++ "CompleteMultipartUpload" ++ ">" ++
          renderInline 0 ((p :: ps).map partNode) ++ "</" ++ "CompleteMultipartUpload" ++ ">"
      else
        "<" ++ "CompleteMultipartUpload" ++ ">" ++ renderBlock 0 ((p :: ps).map partNode) ++
          "\n" ++ indentPad 0 ++ "</" ++ "CompleteMultipartUpload" ++ ">") from rfl]
    rw [renderBlock_parts]
    simp [isTextNode_partNode, indentPad, String.join, List.foldl, String.append_assoc]

/-- The two parts of the repository tests TestCompleteMultipartUpload. -/
def twoPartsList : List CompletePart :=
  [ { partNumber := 1, etag := "etagpart1" }, { partNumber := 2, etag := "etagpart2" } ]

/-- C4.  Serializing a CompleteMultipartUpload body prints the root element
CompleteMultipartUpload holding one Part block per caller-supplied part, in
exactly the caller order, each with a PartNumber child and an ETag child;
for the parts 1/etagpart1 and 2/etagpart2 the output is the exact document
of the repository test and parses back to a tree with two Part elements in
that order. -/
theorem c4_complete_body_serialization (parts : List CompletePart) (hne : parts ≠ []) :
    serializeCompleteBody { parts := parts } =
      "<CompleteMultipartUpload>" ++ concatMap partBlockStr parts ++
        "\n</CompleteMultipartUpload>" ∧
    serializeCompleteBody { parts := twoPartsList } =
      "<CompleteMultipartUpload>\n  <Part>\n    <PartNumber>1</PartNumber>\n    <ETag>etagpart1</ETag>\n  </Part>\n  <Part>\n    <PartNumber>2</PartNumber>\n    <ETag>etagpart2</ETag>\n  </Part>\n</CompleteMultipartUpload>" ∧
    parseXmlNodes (serializeCompleteBody { parts := twoPartsList }) =
      Except.ok
        [ XmlNode.elem "CompleteMultipartUpload"
            [ XmlNode.text "\n  "
            , XmlNode.elem "Part"
                [ XmlNode.text "\n    "
                , XmlNode.elem "PartNumber" [XmlNode.text "1"]
                , XmlNode.text "\n    "
                , XmlNode.elem "ETag" [XmlNode.text "etagpart1"]
                , XmlNode.text "\n  " ]
            , XmlNode.text "\n  "
            , XmlNode.elem "Part"
                [ XmlNode.text "\n    "
                , XmlNode.elem "PartNumber" [XmlNode.text "2"]
                , XmlNode.text "\n    "
                , XmlNode.elem "ETag" [XmlNode.text "etagpart2"]
                , XmlNode.text "\n  " ]
            , XmlNode.text "\n" ] ] := by
  refine ⟨serialize_nonempty parts hne, by decide, by rfl⟩

/-- C4 witness: the serialization equation applied at the two concrete parts
of the repository test. -/
theorem c4_complete_body_serialization_witness :
    serializeCompleteBody { parts := twoPartsList } =
      "<CompleteMultipartUpload>" ++ concatMap partBlockStr twoPartsList ++
        "\n</CompleteMultipartUpload>" :=
  (c4_complete_body_serialization twoPartsList (by decide)).1

/-- The CompleteMultipartUpload request of the repository test
TestCompleteMultipartUpload. -/
def completeReqEx : CompleteMultipartUploadRequest :=
  { bucket := "test-bucket", key := "object.txt", uploadID := "test-upload-id"
  , body := { parts := twoPartsList } }

/-- C7.  Counterexample to the claim as stated: the request the repository
test TestCompleteMultipartUpload builds carries no header named
Content-Length; its headers are exactly the Date header and a header
literally keyed ContentLength valued 206, the byte length of the serialized
body. -/
theorem c7_contentlength_counterexample :
    (buildCompleteRequest epochDT completeReqEx).headers =
      [("Date", "Thu, 01 Jan 1970 00:00:00 UTC"), ("ContentLength", "206")] ∧
    (buildCompleteRequest epochDT completeReqEx).headers.filter
      (fun kv => kv.1 == "Content-Length") = [] := by
  refine ⟨by decide, by decide⟩

/-- C7 (amended).  Every CompleteMultipartUpload request carries exactly one
header keyed ContentLength (set verbatim by direct map assignment rather
than the canonical Content-Length) whose value is the byte length of the
serialized XML request body, which the request also carries as its body. -/
theorem c7_contentlength_amended (now : DateTime) (req : CompleteMultipartUploadRequest) :
    (buildCompleteRequest now req).headers =
      [ ("Date", formatRFC1123 now)
      , ("ContentLength", toString (serializeCompleteBody req.body).utf8ByteSize) ] ∧
    (buildCompleteRequest now req).headers.filter
      (fun kv => kv.1 == "Content-Length") = [] ∧
    (buildCompleteRequest now req).body = serializeCompleteBody req.body := by
  refine ⟨?_, ?_, rfl⟩
  · simp [buildCompleteRequest, headerAdd,
      show canonicalMIMEHeaderKey "Date" = "Date" from by decide]
  · simp [buildCompleteRequest, headerAdd, List.filter,
      show canonicalMIMEHeaderKey "Date" = "Date" from by decide]

theorem mk_data (s : String) : String.mk s.data = s := by
  cases s
  rfl

theorem all_takeWhile_append {p : Char → Bool} {l1 : List Char} (l2 : List Char)
    (h : l1.all p = true) : (l1 ++ l2).takeWhile p = l1 ++ l2.takeWhile p := by
  induction l1 with
  | nil => simp
  | cons c cs ih =>
    simp only [List.all_cons, Bool.and_eq_true] at h
    simp [List.takeWhile_cons, h.1, ih h.2]

theorem all_dropWhile_append {p : Char → Bool} {l1 : List Char} (l2 : List Char)
    (h : l1.all p = true) : (l1 ++ l2).dropWhile p = l2.dropWhile p := by
  induction l1 with
  | nil => simp
  | cons c cs ih =>
    simp only [List.all_cons, Bool.and_eq_true] at h
    simp [List.dropWhile_cons, h.1, ih h.2]

theorem urlPath_spec (pathStr q : String)
    (hp : pathStr.toList.all (fun c => c != '?') = true) :
    urlPath (baseUrl ++ pathStr ++ "?" ++ q) = pathStr := by
  unfold urlPath
  have h1 : (baseUrl ++ pathStr ++ "?" ++ q) = baseUrl ++ (pathStr ++ ("?" ++ q)) := by
    simp [String.append_assoc]
  rw [h1]
  have h2 : (baseUrl ++ (pathStr ++ ("?" ++ q))).toList =
      baseUrl.data ++ (pathStr.data ++ ('?' :: q.data)) := by
    simp [String.toList, String.data_append]
  rw [h2]
  have h3 : baseUrl.length = baseUrl.data.length := rfl
  rw [h3, List.drop_left]
  have hp2 : pathStr.data.all (fun c => c != '?') = true := hp
  rw [all_takeWhile_append _ hp2]
  simp [List.takeWhile_cons, mk_data]

theorem urlQuery_spec (pathStr q : String)
    (hp : pathStr.toList.all (fun c => c != '?') = true) :
    urlQuery (baseUrl ++ pathStr ++ "?" ++ q) = q := by
  unfold urlQuery
  have h1 : (baseUrl ++ pathStr ++ "?" ++ q) = baseUrl ++ (pathStr ++ ("?" ++ q)) := by
    simp [String.append_assoc]
  rw [h1]
  have h2 : (baseUrl ++ (pathStr ++ ("?" ++ q))).toList =
      baseUrl.data ++ (pathStr.data ++ ('?' :: q.data)) := by
    simp [String.toList, String.data_append]
  rw [h2]
  have h3 : baseUrl.length = baseUrl.data.length := rfl
  rw [h3, List.drop_left]
  have hp2 : pathStr.data.all (fun c => c != '?') = true := hp
  rw [all_dropWhile_append _ hp2]
  simp [List.dropWhile_cons, mk_data]

theorem metaKey_ne_date (kk : String) :
    canonicalMIMEHeaderKey ("x-goog-meta-" ++ kk) ≠ "Date" := by
  have hdata : ("x-goog-meta-" ++ kk).data = 'x' :: ("-goog-meta-" ++ kk).data := by
    simp [String.data_append]
  unfold canonicalMIMEHeaderKey
  by_cases h : ((("x-goog-meta-" ++ kk).toList.all validTokenChar) = true)
  · rw [if_pos h]
    intro heq
    have h2 := congrArg String.data heq
    rw [show (String.mk (canonAux true ("x-goog-meta-" ++ kk).toList)).data =
        canonAux true ("x-goog-meta-" ++ kk).data from rfl] at h2
    rw [hdata] at h2
    rw [show canonAux true ('x' :: ("-goog-meta-" ++ kk).data) =
        'X' :: canonAux false ("-goog-meta-" ++ kk).data from rfl] at h2
    rw [show ("Date" : String).data = ['D', 'a', 't', 'e'] from rfl] at h2
    injection h2 with hh _
    exact absurd hh (by decide)
  · rw [if_neg h]
    intro heq
    have h2 := congrArg String.data heq
    rw [hdata, show ("Date" : String).data = ['D', 'a', 't', 'e'] from rfl] at h2
    injection h2 with hh _
    exact absurd hh (by decide)

theorem foldl_headerAdd (meta : List (String × String)) (init : List (String × String)) :
    meta.foldl (fun hs kv => headerAdd hs ("x-goog-meta-" ++ kv.1) kv.2) init =
      init ++ meta.map (fun kv => (canonicalMIMEHeaderKey ("x-goog-meta-" ++ kv.1), kv.2)) := by
  induction meta generalizing init with
  | nil => simp
  | cons hd tl ih =>
    rw [List.foldl_cons, ih]
    simp [headerAdd, List.append_assoc]

theorem initiate_headers (now : DateTime) (req : InitiateMultipartUploadRequest) :
    (buildInitiateRequest now req).headers =
      ("Date", formatRFC1123 now) ::
        req.customMetadata.map
          (fun kv => (canonicalMIMEHeaderKey ("x-goog-meta-" ++ kv.1), kv.2)) := by
  show (req.customMetadata.foldl (fun hs kv => headerAdd hs ("x-goog-meta-" ++ kv.1) kv.2)
      (headerAdd [] "Date" (formatRFC1123 now))) = _
  rw [foldl_headerAdd]
  simp [headerAdd, show canonicalMIMEHeaderKey "Date" = "Date" from by decide]

/-- C6.  An Initiate request carries exactly one x-goog-meta header per
metadata entry, verbatim in iteration order with the entry value and the
key case-normalized per the canonical MIME header form; the two-entry
metadata of the repository test yields exactly the two expected headers. -/
theorem c6_initiate_metadata_headers (now : DateTime)
    (req : InitiateMultipartUploadRequest) :
    (buildInitiateRequest now req).headers =
      ("Date", formatRFC1123 now) ::
        req.customMetadata.map
          (fun kv => (canonicalMIMEHeaderKey ("x-goog-meta-" ++ kv.1), kv.2)) ∧
    (buildInitiateRequest now req).headers.length = 1 + req.customMetadata.length ∧
    (buildInitiateRequest epochDT
      { bucket := "bucket1", key := "some/file/with/a/path/file1.txt"
      , customMetadata := [("mtime", "Saturday"), ("ctime", "Friday")] }).headers =
      [ ("Date", "Thu, 01 Jan 1970 00:00:00 UTC")
      , ("X-Goog-Meta-Mtime", "Saturday"), ("X-Goog-Meta-Ctime", "Friday") ] := by
  refine ⟨initiate_headers now req, ?_, by decide⟩
  rw [initiate_headers]
  simp [Nat.add_comm]

/-- C3.  Every request built by every operation carries exactly one Date
header, whose value is the injected current time in RFC 1123 UTC form. -/
theorem c3_date_header_all_ops (now : DateTime)
    (reqI : InitiateMultipartUploadRequest) (reqU : UploadObjectPartRequest)
    (reqC : CompleteMultipartUploadRequest) (reqA : AbortMultipartUploadRequest)
    (reqL : ListMultipartUploadsRequest) (reqP : ListObjectPartsRequest) :
    (buildInitiateRequest now reqI).headers.filter (fun kv => kv.1 == "Date") =
      [("Date", formatRFC1123 now)] ∧
    (buildUploadPartRequest now reqU).headers.filter (fun kv => kv.1 == "Date") =
      [("Date", formatRFC1123 now)] ∧
    (buildCompleteRequest now reqC).headers.filter (fun kv => kv.1 == "Date") =
      [("Date", formatRFC1123 now)] ∧
    (buildAbortRequest now reqA).headers.filter (fun kv => kv.1 == "Date") =
      [("Date", formatRFC1123 now)] ∧
    (buildListUploadsRequest now reqL).headers.filter (fun kv => kv.1 == "Date") =
      [("Date", formatRFC1123 now)] ∧
    (buildListPartsRequest now reqP).headers.filter (fun kv => kv.1 == "Date") =
      [("Date", formatRFC1123 now)] := by
  refine ⟨?_, ?_, ?_, ?_, ?_, ?_⟩
  · rw [initiate_headers]
    have hnil : (reqI.customMetadata.map
        (fun kv => (canonicalMIMEHeaderKey ("x-goog-meta-" ++ kv.1), kv.2))).filter
        (fun kv => kv.1 == "Date") = [] := by
      apply List.filter_eq_nil_iff.mpr
      intro a ha
      obtain ⟨kv, _, rfl⟩ := List.mem_map.mp ha
      simp
      exact metaKey_ne_date kv.1
    simp [List.filter_cons, hnil]
  · simp [buildUploadPartRequest, headerAdd, List.filter,
      show canonicalMIMEHeaderKey "Date" = "Date" from by decide]
  · simp [buildCompleteRequest, headerAdd, List.filter,
      show canonicalMIMEHeaderKey "Date" = "Date" from by decide]
  · simp [buildAbortRequest, headerAdd, List.filter,
      show canonicalMIMEHeaderKey "Date" = "Date" from by decide]
  · simp [buildListUploadsRequest, headerAdd, List.filter,
      show canonicalMIMEHeaderKey "Date" = "Date" from by decide]
  · simp [buildListPartsRequest, headerAdd, List.filter,
      show canonicalMIMEHeaderKey "Date" = "Date" from by decide]

/-- C5.  For every operation the URL path after the fixed host is exactly
bucket/key (bucket/ for the bucket-level ListMultipartUploads) with the
caller values passed through verbatim, and the query string consists of the
fixed markers plus each optional parameter appended exactly when the caller
supplies a non-default value and omitted entirely otherwise. -/
theorem c5_url_structure (now : DateTime) (b k id km pfx uim pb : String)
    (n mp pnm mu : Int) (meta : List (String × String))
    (parts : CompleteMultipartUploadBody)
    (hb : b.toList.all (fun c => c != '?') = true)
    (hk : k.toList.all (fun c => c != '?') = true) :
    urlPath (buildInitiateRequest now
      { bucket := b, key := k, customMetadata := meta }).url = b ++ "/" ++ k ∧
    urlQuery (buildInitiateRequest now
      { bucket := b, key := k, customMetadata := meta }).url = "uploads" ∧
    urlPath (buildUploadPartRequest now
      { bucket := b, key := k, partNumber := n, uploadID := id, partBody := pb }).url =
      b ++ "/" ++ k ∧
    urlQuery (buildUploadPartRequest now
      { bucket := b, key := k, partNumber := n, uploadID := id, partBody := pb }).url =
      "partNumber=" ++ toString n ++ "&uploadId=" ++ id ∧
    urlPath (buildCompleteRequest now
      { bucket := b, key := k, uploadID := id, body := parts }).url = b ++ "/" ++ k ∧
    urlQuery (buildCompleteRequest now
      { bucket := b, key := k, uploadID := id, body := parts }).url =
      "uploadId=" ++ id ∧
    urlPath (buildAbortRequest now
      { bucket := b, key := k, uploadID := id }).url = b ++ "/" ++ k ∧
    urlQuery (buildAbortRequest now
      { bucket := b, key := k, uploadID := id }).url = "uploadId=" ++ id ∧
    urlPath (buildListUploadsRequest now
      { bucket := b, keyMarker := km, maxUploads := mu, keyPrefix := pfx
      , uploadIdMarker := uim }).url = b ++ "/" ∧
    urlQuery (buildListUploadsRequest now
      { bucket := b, keyMarker := km, maxUploads := mu, keyPrefix := pfx
      , uploadIdMarker := uim }).url =
      "uploads" ++ (if km != "" then "&key-marker=" ++ km else "") ++
        (if 0 < mu then "&max-uploads=" ++ toString mu else "") ++
        (if pfx != "" then "&prefix=" ++ pfx else "") ++
        (if uim != "" then "&upload-id-marker=" ++ uim else "") ∧
    urlPath (buildListPartsRequest now
      { bucket := b, key := k, uploadID := id, maxParts := mp
      , partNumberMarker := pnm }).url = b ++ "/" ++ k ∧
    urlQuery (buildListPartsRequest now
      { bucket := b, key := k, uploadID := id, maxParts := mp
      , partNumberMarker := pnm }).url =
      "uploadId=" ++ id ++ (if 0 < mp then "&max-parts=" ++ toString mp else "") ++
        (if 0 < pnm then "&part-number-marker=" ++ toString pnm else "") := by
  have hb2 : b.data.all (fun c => c != '?') = true := hb
  have hk2 : k.data.all (fun c => c != '?') = true := hk
  have hbk : (b ++ "/" ++ k).toList.all (fun c => c != '?') = true := by
    simp [String.toList, String.data_append, List.all_append, hb2, hk2]
  have hbs : (b ++ "/").toList.all (fun c => c != '?') = true := by
    simp [String.toList, String.data_append, List.all_append, hb2]
  have hI : (buildInitiateRequest now
      { bucket := b, key := k, customMetadata := meta }).url =
      baseUrl ++ (b ++ "/" ++ k) ++ "?" ++ "uploads" := by
    apply String.ext
    simp [buildInitiateRequest, String.data_append]
  have hU : (buildUploadPartRequest now
      { bucket := b, key := k, partNumber := n, uploadID := id, partBody := pb }).url =
      baseUrl ++ (b ++ "/" ++ k) ++ "?" ++
        ("partNumber=" ++ toString n ++ "&uploadId=" ++ id) := by
    apply String.ext
    simp [buildUploadPartRequest, String.data_append]
  have hC : (buildCompleteRequest now
      { bucket := b, key := k, uploadID := id, body := parts }).url =
      baseUrl ++ (b ++ "/" ++ k) ++ "?" ++ ("uploadId=" ++ id) := by
    apply String.ext
    simp [buildCompleteRequest, String.data_append]
  have hA : (buildAbortRequest now { bucket := b, key := k, uploadID := id }).url =
      baseUrl ++ (b ++ "/" ++ k) ++ "?" ++ ("uploadId=" ++ id) := by
    apply String.ext
    simp [buildAbortRequest, String.data_append]
  have hL : (buildListUploadsRequest now
      { bucket := b, keyMarker := km, maxUploads := mu, keyPrefix := pfx
      , uploadIdMarker := uim }).url =
      baseUrl ++ (b ++ "/") ++ "?" ++
        ("uploads" ++ (if km != "" then "&key-marker=" ++ km else "") ++
          (if 0 < mu then "&max-uploads=" ++ toString mu else "") ++
          (if pfx != "" then "&prefix=" ++ pfx else "") ++
          (if uim != "" then "&upload-id-marker=" ++ uim else "")) := by
    apply String.ext
    simp [buildListUploadsRequest, String.data_append]
  have hP : (buildListPartsRequest now
      { bucket := b, key := k, uploadID := id, maxParts := mp
      , partNumberMarker := pnm }).url =
      baseUrl ++ (b ++ "/" ++ k) ++ "?" ++
        ("uploadId=" ++ id ++ (if 0 < mp then "&max-parts=" ++ toString mp else "") ++
          (if 0 < pnm then "&part-number-marker=" ++ toString pnm else "")) := by
    apply String.ext
    simp [buildListPartsRequest, String.data_append]
  refine ⟨?_, ?_, ?_, ?_, ?_, ?_, ?_, ?_, ?_, ?_, ?_, ?_⟩
  · rw [hI, urlPath_spec _ _ hbk]
  · rw [hI, urlQuery_spec _ _ hbk]
  · rw [hU, urlPath_spec _ _ hbk]
  · rw [hU, urlQuery_spec _ _ hbk]
  · rw [hC, urlPath_spec _ _ hbk]
  · rw [hC, urlQuery_spec _ _ hbk]
  · rw [hA, urlPath_spec _ _ hbk]
  · rw [hA, urlQuery_spec _ _ hbk]
  · rw [hL, urlPath_spec _ _ hbs]
  · rw [hL, urlQuery_spec _ _ hbs]
  · rw [hP, urlPath_spec _ _ hbk]
  · rw [hP, urlQuery_spec _ _ hbk]

/-- C5 witness: the URL structure applied to the ListObjectParts request of
the repository test TestListObjectParts, whose two optional parameters are
set, and to a ListMultipartUploads request with no optional parameter. -/
theorem c5_url_structure_witness :
    urlPath (buildListPartsRequest epochDT
      { bucket := "test-bucket", key := "object.txt", uploadID := "test-upload-id"
      , maxParts := 2, partNumberMarker := 1 }).url =
      "test-bucket" ++ "/" ++ "object.txt" ∧
    urlQuery (buildListPartsRequest epochDT
      { bucket := "test-bucket", key := "object.txt", uploadID := "test-upload-id"
      , maxParts := 2, partNumberMarker := 1 }).url =
      "uploadId=" ++ "test-upload-id" ++
        (if (0 : Int) < 2 then "&max-parts=" ++ toString (2 : Int) else "") ++
        (if (0 : Int) < 1 then "&part-number-marker=" ++ toString (1 : Int) else "") ∧
    urlQuery (buildListUploadsRequest epochDT { bucket := "bucket1" }).url =
      "uploads" ++ (if ("" : String) != "" then "&key-marker=" ++ "" else "") ++
        (if (0 : Int) < 0 then "&max-uploads=" ++ toString (0 : Int) else "") ++
        (if ("" : String) != "" then "&prefix=" ++ "" else "") ++
        (if ("" : String) != "" then "&upload-id-marker=" ++ "" else "") := by
  have h1 := c5_url_structure epochDT "test-bucket" "object.txt" "test-upload-id"
    "" "" "" "" 1 2 1 0 [] { parts := [] } (by decide) (by decide)
  have h2 := c5_url_structure epochDT "bucket1" "" "" "" "" "" "" 1 0 0 0 []
    { parts := [] } (by decide) (by decide)
  exact ⟨h1.2.2.2.2.2.2.2.2.2.2.1, h1.2.2.2.2.2.2.2.2.2.2.2,
    h2.2.2.2.2.2.2.2.2.2.1⟩

end GcsMultipart
